import Mathlib

/-!
Shallow embedding of the telemetry and HID driver core of the repository
(MsWheaPkg/Crates/RustMuTelemetryHelperLib and HidPkg/UefiHidDxeV2).

Machine integers are modelled as `Nat` with explicit `% 2^w` where the code
truncates; GUIDs are modelled by their 16-byte in-memory representation,
one field per byte, so that byte-level layouts compute structurally.
The target is little-endian (UEFI x86_64/AArch64), so multi-byte integer
fields serialize least-significant byte first.
-/

/-- A 128-bit GUID, as the 16 bytes of its in-memory representation
(`efi::Guid`).  Each field is one byte (0..255). -/
structure Guid where
  b0 : Nat
  b1 : Nat
  b2 : Nat
  b3 : Nat
  b4 : Nat
  b5 : Nat
  b6 : Nat
  b7 : Nat
  b8 : Nat
  b9 : Nat
  b10 : Nat
  b11 : Nat
  b12 : Nat
  b13 : Nat
  b14 : Nat
  b15 : Nat
deriving DecidableEq, Repr

/-- The in-memory byte sequence of a GUID, in address order. -/
def Guid.bytes (g : Guid) : List Nat :=
  [g.b0, g.b1, g.b2, g.b3, g.b4, g.b5, g.b6, g.b7,
   g.b8, g.b9, g.b10, g.b11, g.b12, g.b13, g.b14, g.b15]

/-- `mu_rust_helpers::guid::ZERO`: the all-zero sentinel GUID. -/
def guidZERO : Guid :=
  ⟨0, 0, 0, 0, 0, 0, 0, 0, 0, 0, 0, 0, 0, 0, 0, 0⟩

/-- `MS_WHEA_RSC_DATA_TYPE_GUID` = 91DEEA05-8C0A-4DCD-B91E-F21CA0C68405
(lib.rs line 48), laid out as `efi::Guid` stores it: the three leading
fields little-endian, the trailing eight bytes verbatim. -/
def MS_WHEA_RSC_DATA_TYPE_GUID : Guid :=
  ⟨0x05, 0xEA, 0xDE, 0x91, 0x0A, 0x8C, 0xCD, 0x4D,
   0xB9, 0x1E, 0xF2, 0x1C, 0xA0, 0xC6, 0x84, 0x05⟩

/-- Little-endian serialization of a `u16` value. -/
def u16le (n : Nat) : List Nat :=
  [n % 256, n / 256 % 256]

/-- Little-endian serialization of a `u64` value. -/
def u64le (n : Nat) : List Nat :=
  [n % 256,
   n / 256 % 256,
   n / 65536 % 256,
   n / 16777216 % 256,
   n / 4294967296 % 256,
   n / 1099511627776 % 256,
   n / 281474976710656 % 256,
   n / 72057594037927936 % 256]

/-- Little-endian deserialization of 8 bytes into a `u64` value; the exact
inverse of `u64le` (anything that is not exactly 8 bytes decodes to 0). -/
def u64dec : List Nat → Nat
  | [x0, x1, x2, x3, x4, x5, x6, x7] =>
      x0 + 256 * (x1 + 256 * (x2 + 256 * (x3 + 256 * (x4 + 256 *
        (x5 + 256 * (x6 + 256 * x7))))))
  | _ => 0

/-- `EFI_STATUS_CODE_DATA` / `EfiStatusCodeData` (from the `mu_pi`
dependency): the fixed extended-data header `{ header_size: u16,
size: u16, type: Guid }`, `repr(C)`, field offsets 0, 2, 4; total size
and alignment give `mem::size_of::<EfiStatusCodeData>() = 20`. -/
structure EfiStatusCodeData where
  header_size : Nat
  size : Nat
  type : Guid

/-- `mem::size_of::<EfiStatusCodeData>()`: 2 + 2 + 16 = 20 bytes. -/
def EFI_STATUS_CODE_DATA_SIZE : Nat := 20

/-- The byte image produced by `ptr::write` of an `EfiStatusCodeData`
value at offset 0 of the record buffer: `header_size` at [0,2) LE,
`size` at [2,4) LE, the type GUID at [4,20). -/
def EfiStatusCodeData.bytes (h : EfiStatusCodeData) : List Nat :=
  u16le h.header_size ++ u16le h.size ++ h.type.bytes

/-- Record construction of `StatusCodeRuntimeProtocol::report_status_code`
in status_code_runtime.rs lines 73-88: a zeroed `vec` of
`header_size + data_size` bytes, `ptr::write` of the header
`{ header_size: 20, size: data_size as u16, type: data_type }` at offset 0,
then `ptr::write_unaligned` of the payload at offset 20
(`data_ptr.add(1)`).  Every byte of the buffer is overwritten, so the
record is the header image followed directly by the payload bytes.
`data_size as u16` truncates modulo 2^16. -/
def buildRecord (data_type : Guid) (data : List Nat) : List Nat :=
  let header : EfiStatusCodeData :=
    { header_size := EFI_STATUS_CODE_DATA_SIZE
      size := data.length % 65536
      type := data_type }
  header.bytes ++ data

/-- Record construction of the earlier revision of
`StatusCodeRuntimeProtocol::report_status_code` in protocols.rs lines
52-66: `allocate_pool` of `size_of::<EfiStatusCodeData>() + size_of::<T>()`
bytes, `ptr::write` of the header (fields written inline) at offset 0, then
`ptr::write_unaligned` of the payload at `data_ptr.add(1)` = offset 20.
Header and payload together cover the whole allocation. -/
def buildRecordLegacy (data_type : Guid) (data : List Nat) : List Nat :=
  EfiStatusCodeData.bytes
    { header_size := EFI_STATUS_CODE_DATA_SIZE
      size := data.length % 65536
      type := data_type }
    ++ data

/-- `efi::Status::SUCCESS` = 0. -/
def EFI_SUCCESS : Nat := 0

/-- `efi::Status::NOT_FOUND` = EFI_NOT_FOUND: error bit (2^63) | 14. -/
def EFI_NOT_FOUND : Nat := 9223372036854775822

/-- Observable steps of one `report_status_code` call, in program order:
the service-directory lookup (`locate_protocol`, line 68), the record
construction (lines 73-88), the service invocation (lines 94-100). -/
inductive Event where
  | lookup
  | encode
  | invoke
deriving DecidableEq, Repr

/-- Result of the Rust function as observed by its caller: normal return
`Ok(())`, normal return `Err(status)`, or a panic that never returns
(the unconditional `assert` at status_code_runtime.rs line 103). -/
inductive RsOutcome where
  | ok
  | err (status : Nat)
  | panicked
deriving DecidableEq, Repr

/-- The argument tuple passed to the located service's
`report_status_code` function pointer (status_code_runtime.rs lines
94-100): `(type, value, instance, caller_id, data)`.  `inst` models the
`instance` argument; `caller_id` is the pointee of the (always non-null)
caller-id pointer; `data` is the byte content of the record buffer. -/
structure Invocation where
  type : Nat
  value : Nat
  inst : Nat
  caller_id : Guid
  data : List Nat

/-- The located service interface: what its `report_status_code` function
pointer returns (an `efi::Status`) for a given invocation. -/
def RscService : Type := Invocation → Nat

/-- Result of `boot_services.locate_protocol`, a
`Result<Option<&Interface>, efi::Status>`: `err e` for `Err(e)`,
`notFound` for `Ok(None)`, `found svc` for `Ok(Some(svc))`. -/
inductive LocateResult where
  | err (e : Nat)
  | notFound
  | found (svc : RscService)

/-- Everything one call to `report_status_code` does, in order: the events
it performs, the status the located service returned (when it was
invoked), the caller-visible outcome, and the invocation made. -/
structure ReportResult where
  trace : List Event
  serviceStatus : Option Nat
  outcome : RsOutcome
  invocation : Option Invocation

/-- `StatusCodeRuntimeProtocol::report_status_code`
(status_code_runtime.rs lines 59-110).  `moduleId` stands for
`guid::CALLER_ID`, the reporting module's own identity GUID.  Control
flow of the source: `locate_protocol` first (an `Err` propagates through
`?`; `Ok(None)` returns `Err(NOT_FOUND)`) - only then is the record buffer
built, the caller id defaulted (`caller_id.or(Some(&guid::CALLER_ID))`),
and the service invoked.  After the invocation the source executes an
unconditional `assert` with a false condition (line 103), so the function
panics and the status-mapping code at lines 105-109 is unreachable. -/
def report_status_code (moduleId : Guid) (locate : LocateResult)
    (status_code_type status_code_value inst : Nat)
    (caller_id : Option Guid) (data_type : Guid) (data : List Nat) :
    ReportResult :=
  match locate with
  | .err e =>
      { trace := [Event.lookup], serviceStatus := none,
        outcome := .err e, invocation := none }
  | .notFound =>
      { trace := [Event.lookup], serviceStatus := none,
        outcome := .err EFI_NOT_FOUND, invocation := none }
  | .found svc =>
      let record := buildRecord data_type data
      let cid := caller_id.getD moduleId
      let inv : Invocation :=
        { type := status_code_type, value := status_code_value,
          inst := inst, caller_id := cid, data := record }
      let status := svc inv
      { trace := [Event.lookup, Event.encode, Event.invoke],
        serviceStatus := some status,
        outcome := .panicked,
        invocation := some inv }

/-- `EFI_ERROR_CODE` (PI status-code type, re-exported by `mu_pi`). -/
def EFI_ERROR_CODE : Nat := 2

/-- `EFI_ERROR_MINOR` (PI status-code severity, re-exported by `mu_pi`). -/
def EFI_ERROR_MINOR : Nat := 1073741824

/-- `EFI_ERROR_MAJOR` (PI status-code severity, re-exported by `mu_pi`). -/
def EFI_ERROR_MAJOR : Nat := 2147483648

/-- lib.rs line 50. -/
def MS_WHEA_ERROR_STATUS_TYPE_INFO : Nat :=
  Nat.lor EFI_ERROR_MINOR EFI_ERROR_CODE

/-- lib.rs line 51. -/
def MS_WHEA_ERROR_STATUS_TYPE_FATAL : Nat :=
  Nat.lor EFI_ERROR_MAJOR EFI_ERROR_CODE

/-- `MsWheaRscInternalErrorData` (lib.rs lines 72-78), `repr(C)`:
two GUIDs at offsets 0 and 16, two `u64` at offsets 32 and 40;
size 48. -/
structure MsWheaRscInternalErrorData where
  library_id : Guid
  ihv_sharing_guid : Guid
  additional_info_1 : Nat
  additional_info_2 : Nat

/-- The byte image produced by `ptr::write_unaligned` of an
`MsWheaRscInternalErrorData` value: the two GUIDs verbatim, the two
`u64` fields little-endian. -/
def MsWheaRscInternalErrorData.bytes (d : MsWheaRscInternalErrorData) :
    List Nat :=
  d.library_id.bytes ++ d.ihv_sharing_guid.bytes ++
    u64le d.additional_info_1 ++ u64le d.additional_info_2

/-- Decoding of the 48-byte diagnostic payload by fixed byte offsets,
the exact inverse of `MsWheaRscInternalErrorData.bytes`: GUID bytes at
[0,16), GUID bytes at [16,32), a `u64` at [32,40), a `u64` at [40,48). -/
def decodeErrorDataBytes (b : List Nat) :
    List Nat × List Nat × Nat × Nat :=
  (b.take 16, (b.drop 16).take 16,
   u64dec ((b.drop 32).take 8), u64dec ((b.drop 40).take 8))

/-- `log_telemetry_internal` (lib.rs lines 117-148): pick the status-code
type from the severity, build the payload with absent GUIDs defaulted to
`guid::ZERO`, and call `report_status_code` with instance 0 and
`MS_WHEA_RSC_DATA_TYPE_GUID` as the extended-data type. -/
def log_telemetry_internal (moduleId : Guid) (locate : LocateResult)
    (is_fatal : Bool) (class_id extra_data1 extra_data2 : Nat)
    (component_id library_id ihv_id : Option Guid) : ReportResult :=
  let status_code_type : Nat :=
    if is_fatal then MS_WHEA_ERROR_STATUS_TYPE_FATAL
    else MS_WHEA_ERROR_STATUS_TYPE_INFO
  let error_data : MsWheaRscInternalErrorData :=
    { library_id := library_id.getD guidZERO
      ihv_sharing_guid := ihv_id.getD guidZERO
      additional_info_1 := extra_data1
      additional_info_2 := extra_data2 }
  report_status_code moduleId locate status_code_type class_id 0
    component_id MS_WHEA_RSC_DATA_TYPE_GUID error_data.bytes

/-- The argument tuple of one `log_telemetry` call. -/
structure ReportCall where
  is_fatal : Bool
  class_id : Nat
  extra_data1 : Nat
  extra_data2 : Nat
  component_id : Option Guid
  library_id : Option Guid
  ihv_id : Option Guid

/-- The event trace of a boot session that attempts the given sequence
of `log_telemetry` calls in order.  `BOOT_SERVICES` (lib.rs line 46)
holds no located service handle - only the boot-services table - so
every call that runs executes the whole of `report_status_code`,
beginning with its own `locate_protocol`.  A call whose outcome is
`panicked` never returns (the panic handler loops), so the session ends
with that call's trace and no later call runs. -/
def sessionTrace (moduleId : Guid) (locate : LocateResult) :
    List ReportCall → List Event
  | [] => []
  | c :: cs =>
      let r := log_telemetry_internal moduleId locate c.is_fatal
        c.class_id c.extra_data1 c.extra_data2 c.component_id
        c.library_id c.ihv_id
      if r.outcome = RsOutcome.panicked then r.trace
      else r.trace ++ sessionTrace moduleId locate cs

/-- How many service-directory lookups (`locate_protocol` calls) a boot
session performs for the given sequence of `log_telemetry` calls. -/
def sessionLookupCount (moduleId : Guid) (locate : LocateResult)
    (calls : List ReportCall) : Nat :=
  (sessionTrace moduleId locate calls).count Event.lookup

/-- A HID report receiver as constructed by `new_hid_receiver_list`
(main.rs lines 42-52): either `PointerHidHandler::new(boot_services,
agent)` or `KeyboardHidHandler::new(boot_services, agent)`.  The handles
passed to the constructors are opaque; they are modelled as `Nat`. -/
inductive HidReportReceiver where
  | pointerHidHandler (boot_services : Nat) (agent : Nat)
  | keyboardHidHandler (boot_services : Nat) (agent : Nat)
deriving DecidableEq, Repr

/-- `UefiReceivers` (main.rs lines 38-41): the receiver factory state,
a reference to the host-provided boot services and the driver's agent
handle. -/
structure UefiReceivers where
  boot_services : Nat
  agent : Nat

/-- `UefiReceivers::new_hid_receiver_list` (main.rs lines 42-52): ignores
the controller, allocates a vector, pushes a pointer handler then a
keyboard handler, each built from the factory's boot services and agent,
and returns `Ok`.  No fallible operation other than allocation occurs. -/
def UefiReceivers.new_hid_receiver_list (s : UefiReceivers)
    (controller : Nat) : Except Nat (List HidReportReceiver) :=
  let _ := controller
  Except.ok
    [HidReportReceiver.pointerHidHandler s.boot_services s.agent,
     HidReportReceiver.keyboardHidHandler s.boot_services s.agent]

/-- Modelled from the spec: the per-controller lifecycle state of the
`UefiDriverBinding` coordinator of UefiHidDxeV2.  The driver_binding
module itself is not under src/ (only main.rs, its caller, is); spec
section 4.1 gives its state machine `NotBound -> Active` with `Start`
storing the receiver set and `Stop` dropping it. -/
inductive DriverState where
  | notBound
  | active (receivers : List HidReportReceiver)
deriving DecidableEq, Repr

/-- Modelled from the spec: the result of one `Stop` call - the state
after the call, the returned status, and how many receiver objects the
call released. -/
structure StopResult where
  state : DriverState
  status : Nat
  released : Nat
deriving DecidableEq, Repr

/-- Modelled from the spec: `Start(controller)` of the missing
driver_binding module - asks the receiver factory for the receiver list;
on success stores it and the controller becomes Active, on failure the
controller stays NotBound and the error is surfaced. -/
def driverStart (factoryResult : Except Nat (List HidReportReceiver)) :
    DriverState × Nat :=
  match factoryResult with
  | .ok rs => (DriverState.active rs, EFI_SUCCESS)
  | .error e => (DriverState.notBound, e)

/-- Modelled from the spec: `Stop(controller)` of the missing
driver_binding module - on an Active controller it unregisters and drops
all receiver state and succeeds; on an already-stopped controller it is
a no-op success that releases nothing (spec section 4.1: idempotent). -/
def driverStop : DriverState → StopResult
  | DriverState.notBound =>
      { state := DriverState.notBound, status := EFI_SUCCESS, released := 0 }
  | DriverState.active rs =>
      { state := DriverState.notBound, status := EFI_SUCCESS,
        released := rs.length }

/-- The mock caller id of the crate's own test
(lib.rs line 173, guid d0d1d2d3-d4d5-d6d7-d8d9-dadbdcdddedf), in
`efi::Guid` memory order. -/
def MOCK_CALLER_ID : Guid :=
  ⟨0xd3, 0xd2, 0xd1, 0xd0, 0xd5, 0xd4, 0xd7, 0xd6,
   0xd8, 0xd9, 0xda, 0xdb, 0xdc, 0xdd, 0xde, 0xdf⟩

/-- The mock library id used in the crate's own test (lib.rs line 219). -/
def MOCK_LIBRARY_ID : Guid :=
  ⟨0xe3, 0xe2, 0xe1, 0xe0, 0xe5, 0xe4, 0xe7, 0xe6,
   0xe8, 0xe9, 0xea, 0xeb, 0xec, 0xed, 0xee, 0xef⟩

/-- The mock partner (IHV) id used in the crate's own test
(lib.rs line 220). -/
def MOCK_IHV_ID : Guid :=
  ⟨0xf3, 0xf2, 0xf1, 0xf0, 0xf5, 0xf4, 0xf7, 0xf6,
   0xf8, 0xf9, 0xfa, 0xfb, 0xfc, 0xfd, 0xfe, 0xff⟩

/-- A concrete 48-byte payload, for witnesses. -/
def payload48 : List Nat := List.replicate 48 0

/-- Helper: `u64dec` is a left inverse of `u64le` on `u64` values. -/
theorem u64dec_u64le (n : Nat) (h : n < 18446744073709551616) :
    u64dec (u64le n) = n := by
  simp only [u64le, u64dec]
  omega

/-- Helper: the record buffer written out as one append chain. -/
theorem buildRecord_spine (t : Guid) (data : List Nat) :
    buildRecord t data =
      u16le EFI_STATUS_CODE_DATA_SIZE ++
        (u16le (data.length % 65536) ++ (t.bytes ++ data)) := by
  simp [buildRecord, EfiStatusCodeData.bytes]

/-- Helper: one `report_status_code` call with the service located,
written out as the result record it produces. -/
theorem report_found_spine (moduleId : Guid) (svc : RscService)
    (st v inst : Nat) (cid : Option Guid) (dt : Guid) (data : List Nat) :
    report_status_code moduleId (LocateResult.found svc) st v inst cid
        dt data =
      { trace := [Event.lookup, Event.encode, Event.invoke]
        serviceStatus := some (svc
          { type := st, value := v, inst := inst,
            caller_id := cid.getD moduleId, data := buildRecord dt data })
        outcome := RsOutcome.panicked
        invocation := some
          { type := st, value := v, inst := inst,
            caller_id := cid.getD moduleId,
            data := buildRecord dt data } } := rfl

/-- Helper: one `report_status_code` call that fails inside
`locate_protocol`, written out as the result record it produces. -/
theorem report_err_spine (moduleId : Guid) (e : Nat)
    (st v inst : Nat) (cid : Option Guid) (dt : Guid) (data : List Nat) :
    report_status_code moduleId (LocateResult.err e) st v inst cid
        dt data =
      { trace := [Event.lookup], serviceStatus := none,
        outcome := RsOutcome.err e, invocation := none } := rfl

/-- Helper: one `report_status_code` call with the service absent,
written out as the result record it produces. -/
theorem report_notfound_spine (moduleId : Guid)
    (st v inst : Nat) (cid : Option Guid) (dt : Guid) (data : List Nat) :
    report_status_code moduleId LocateResult.notFound st v inst cid
        dt data =
      { trace := [Event.lookup], serviceStatus := none,
        outcome := RsOutcome.err EFI_NOT_FOUND, invocation := none } :=
  rfl

/-- Helper: `log_telemetry_internal` written out as the
`report_status_code` call it makes. -/
theorem log_telemetry_internal_spine (moduleId : Guid)
    (locate : LocateResult) (is_fatal : Bool)
    (class_id extra_data1 extra_data2 : Nat)
    (component_id library_id ihv_id : Option Guid) :
    log_telemetry_internal moduleId locate is_fatal class_id extra_data1
        extra_data2 component_id library_id ihv_id =
      report_status_code moduleId locate
        (if is_fatal then MS_WHEA_ERROR_STATUS_TYPE_FATAL
          else MS_WHEA_ERROR_STATUS_TYPE_INFO)
        class_id 0 component_id MS_WHEA_RSC_DATA_TYPE_GUID
        ((library_id.getD guidZERO).bytes ++
          (ihv_id.getD guidZERO).bytes ++
          u64le extra_data1 ++ u64le extra_data2) := rfl

/-- Helper: the payload sits at offset 20 of the record, unchanged. -/
theorem buildRecord_drop20 (t : Guid) (data : List Nat) :
    (buildRecord t data).drop 20 = data := by
  rw [buildRecord_spine]
  rfl

/-- Helper: the record is exactly 20 bytes longer than the payload. -/
theorem buildRecord_length (t : Guid) (data : List Nat) :
    (buildRecord t data).length = 20 + data.length := by
  rw [buildRecord_spine]
  simp [u16le, Guid.bytes]
  omega

/-- Helper: decoding the serialized diagnostic payload by fixed offsets
recovers each field (the integers up to the `u64le`/`u64dec` pair). -/
theorem decodeErrorDataBytes_encode (g1 g2 : Guid) (n1 n2 : Nat) :
    decodeErrorDataBytes
        (g1.bytes ++ (g2.bytes ++ (u64le n1 ++ u64le n2))) =
      (g1.bytes, g2.bytes, u64dec (u64le n1), u64dec (u64le n2)) := rfl

/-- Claim C3: for every payload of fixed size S (< 2^16), the
extended-data encoding is one contiguous buffer of length 20 + S with
bytes [0,2) holding 20 little-endian, bytes [2,4) holding S
little-endian, bytes [4,20) holding the type GUID, and the payload at
offset 20 with no padding. -/
theorem record_layout (t : Guid) (payload : List Nat) (S : Nat)
    (hS : payload.length = S) (h16 : S < 65536) :
    (buildRecord t payload).length = 20 + S ∧
    (buildRecord t payload).take 2 = [20, 0] ∧
    ((buildRecord t payload).drop 2).take 2 = u16le S ∧
    ((buildRecord t payload).drop 4).take 16 = t.bytes ∧
    (buildRecord t payload).drop 20 = payload := by
  subst hS
  rw [buildRecord_spine]
  refine ⟨?_, rfl, ?_, rfl, rfl⟩
  · simp [u16le, Guid.bytes]
    omega
  · show [payload.length % 65536 % 256, payload.length % 65536 / 256 % 256]
      = u16le payload.length
    rw [Nat.mod_eq_of_lt h16]
    rfl

/-- Claim C3 witness: instantiated at the 48-byte diagnostic payload,
where the total record length is 20 + 48 = 68 bytes. -/
theorem record_layout_witness :
    (payload48.length = 48 ∧ 48 < 65536) ∧
    ((buildRecord MS_WHEA_RSC_DATA_TYPE_GUID payload48).length = 20 + 48 ∧
     (buildRecord MS_WHEA_RSC_DATA_TYPE_GUID payload48).take 2 = [20, 0] ∧
     ((buildRecord MS_WHEA_RSC_DATA_TYPE_GUID payload48).drop 2).take 2 =
       u16le 48 ∧
     ((buildRecord MS_WHEA_RSC_DATA_TYPE_GUID payload48).drop 4).take 16 =
       MS_WHEA_RSC_DATA_TYPE_GUID.bytes ∧
     (buildRecord MS_WHEA_RSC_DATA_TYPE_GUID payload48).drop 20 =
       payload48) ∧
    (buildRecord MS_WHEA_RSC_DATA_TYPE_GUID payload48).length = 68 :=
  ⟨⟨by decide, by decide⟩,
   record_layout MS_WHEA_RSC_DATA_TYPE_GUID payload48 48
     (by decide) (by decide),
   by decide⟩

/-- Claim C8: the two coexisting revisions of the report routine
(status_code_runtime.rs and the earlier protocols.rs) construct
byte-identical extended-data records for the same inputs: the same
20-byte header at offset 0 and the same payload bytes at offset 20. -/
theorem legacy_record_identical (t : Guid) (data : List Nat) :
    buildRecordLegacy t data = buildRecord t data := rfl

/-- Claim C9: `new_hid_receiver_list` is pure construction: for every
controller it returns Ok with the ordered list of a pointer handler then
a keyboard handler, each built from the factory's agent identity and
host-provided services, and it never returns an error. -/
theorem receiver_list_pure (s : UefiReceivers) (controller : Nat) :
    s.new_hid_receiver_list controller =
      Except.ok
        [HidReportReceiver.pointerHidHandler s.boot_services s.agent,
         HidReportReceiver.keyboardHidHandler s.boot_services s.agent] ∧
    ∀ e, s.new_hid_receiver_list controller ≠ Except.error e :=
  ⟨rfl, fun _ h => Except.noConfusion h⟩

/-- Claim C10: after a successful Start, Stop succeeds and a second Stop
on the now already-stopped controller is a no-op success that releases
no receiver state (no double release). -/
theorem stop_idempotent (rs : List HidReportReceiver) :
    (driverStop (driverStart (Except.ok rs)).1).status = EFI_SUCCESS ∧
    (driverStop (driverStop (driverStart (Except.ok rs)).1).state).status
      = EFI_SUCCESS ∧
    (driverStop (driverStop (driverStart (Except.ok rs)).1).state).released
      = 0 :=
  ⟨rfl, rfl, rfl⟩

/-- Claim C1 (code-bug evidence): with the reporting service located and
its invocation returning success (status 0), the call still does not
return success - after the invocation the source executes an
unconditional false `assert` (status_code_runtime.rs line 103) and
panics, so the status mapping at lines 105-109 never runs; the crate's
own test `try_log_telemetry` expects `Ok(())` from this very call. -/
theorem report_halts_despite_service_success :
    (log_telemetry_internal MOCK_CALLER_ID
        (LocateResult.found (fun _ => EFI_SUCCESS)) true 0xa0a1a2a3
        0xb0b1b2b3b4b5b6b7 0xc0c1c2c3c4c5c6c7 (some MOCK_CALLER_ID)
        (some MOCK_LIBRARY_ID) (some MOCK_IHV_ID)).serviceStatus
      = some EFI_SUCCESS ∧
    (log_telemetry_internal MOCK_CALLER_ID
        (LocateResult.found (fun _ => EFI_SUCCESS)) true 0xa0a1a2a3
        0xb0b1b2b3b4b5b6b7 0xc0c1c2c3c4c5c6c7 (some MOCK_CALLER_ID)
        (some MOCK_LIBRARY_ID) (some MOCK_IHV_ID)).outcome
      = RsOutcome.panicked := by
  simp [log_telemetry_internal_spine, report_found_spine]

/-- Claim C2 counterexample: a boot session of two report calls made
with the reporting service absent - both calls return, each failing
with NOT_FOUND - performs two service-directory lookups, refuting
"resolved through the service directory at most once per boot
session". -/
theorem session_two_calls_two_lookups :
    sessionLookupCount guidZERO LocateResult.notFound
        [{ is_fatal := true, class_id := 1, extra_data1 := 2,
           extra_data2 := 3, component_id := none, library_id := none,
           ihv_id := none },
         { is_fatal := false, class_id := 4, extra_data1 := 5,
           extra_data2 := 6, component_id := none, library_id := none,
           ihv_id := none }] = 2 ∧
    ¬ (sessionLookupCount guidZERO LocateResult.notFound
        [{ is_fatal := true, class_id := 1, extra_data1 := 2,
           extra_data2 := 3, component_id := none, library_id := none,
           ihv_id := none },
         { is_fatal := false, class_id := 4, extra_data1 := 5,
           extra_data2 := 6, component_id := none, library_id := none,
           ihv_id := none }] ≤ 1) :=
  ⟨by decide, by decide⟩

/-- Claim C2 (amended): the located handle is never cached - every
report call that executes performs its own service-directory lookup.
With the service absent (whether the directory reports absence as an
empty result or as an error), every call of the session returns
NOT_FOUND after its own lookup, so n calls perform n lookups; with the
service present, the first call performs its own lookup and then never
returns (it panics after the invocation), ending the session at exactly
one lookup. -/
theorem session_lookup_per_call (moduleId : Guid)
    (calls : List ReportCall) :
    (∀ e, sessionLookupCount moduleId (LocateResult.err e) calls
        = calls.length) ∧
    sessionLookupCount moduleId LocateResult.notFound calls
        = calls.length ∧
    ∀ svc c cs, sessionLookupCount moduleId (LocateResult.found svc)
        (c :: cs) = 1 := by
  refine ⟨?_, ?_, ?_⟩
  · intro e
    induction calls with
    | nil => rfl
    | cons c cs ih =>
        simp only [sessionLookupCount, sessionTrace,
          log_telemetry_internal_spine, report_err_spine,
          List.count_append] at ih ⊢
        simp only [reduceCtorEq, if_false]
        simp [ih]
  · induction calls with
    | nil => rfl
    | cons c cs ih =>
        simp only [sessionLookupCount, sessionTrace,
          log_telemetry_internal_spine, report_notfound_spine,
          List.count_append] at ih ⊢
        simp only [reduceCtorEq, if_false]
        simp [ih]
  · intro svc c cs
    simp only [sessionLookupCount, sessionTrace,
      log_telemetry_internal_spine, report_found_spine]
    rfl

/-- Claim C4: a fatal report with all three ids supplied invokes the
service with the fatal wire type, the class id as value, instance 0, the
supplied component id as caller id, and a 68-byte record whose payload
decodes to (library id, partner id, extra1, extra2) in that order. -/
theorem telemetry_end_to_end (moduleId X Y Z : Guid) (svc : RscService)
    (class_id e1 e2 : Nat)
    (h1 : e1 < 18446744073709551616) (h2 : e2 < 18446744073709551616) :
    ∃ inv, (log_telemetry_internal moduleId (LocateResult.found svc) true
        class_id e1 e2 (some X) (some Y) (some Z)).invocation
        = some inv ∧
      inv.type = MS_WHEA_ERROR_STATUS_TYPE_FATAL ∧
      inv.value = class_id ∧ inv.inst = 0 ∧ inv.caller_id = X ∧
      inv.data.length = 68 ∧
      decodeErrorDataBytes (inv.data.drop 20) =
        (Y.bytes, Z.bytes, e1, e2) := by
  rw [log_telemetry_internal_spine, report_found_spine]
  refine ⟨_, rfl, ?_, ?_, ?_, ?_, ?_, ?_⟩
  · simp
  · simp
  · simp
  · simp
  · simp [buildRecord_length, Guid.bytes, u64le]
  · simp [buildRecord_drop20, decodeErrorDataBytes_encode,
      u64dec_u64le e1 h1, u64dec_u64le e2 h2]

/-- Claim C4 witness: instantiated at the spec's concrete end-to-end
values, with the test's mock ids. -/
theorem telemetry_end_to_end_witness :
    (0xb0b1b2b3b4b5b6b7 < 18446744073709551616 ∧
     0xc0c1c2c3c4c5c6c7 < 18446744073709551616) ∧
    ∃ inv, (log_telemetry_internal guidZERO
        (LocateResult.found (fun _ => EFI_SUCCESS)) true 0xa0a1a2a3
        0xb0b1b2b3b4b5b6b7 0xc0c1c2c3c4c5c6c7 (some MOCK_CALLER_ID)
        (some MOCK_LIBRARY_ID) (some MOCK_IHV_ID)).invocation
        = some inv ∧
      inv.type = MS_WHEA_ERROR_STATUS_TYPE_FATAL ∧
      inv.value = 0xa0a1a2a3 ∧ inv.inst = 0 ∧
      inv.caller_id = MOCK_CALLER_ID ∧
      inv.data.length = 68 ∧
      decodeErrorDataBytes (inv.data.drop 20) =
        (MOCK_LIBRARY_ID.bytes, MOCK_IHV_ID.bytes,
         0xb0b1b2b3b4b5b6b7, 0xc0c1c2c3c4c5c6c7) :=
  ⟨⟨by decide, by decide⟩,
   telemetry_end_to_end guidZERO MOCK_CALLER_ID MOCK_LIBRARY_ID
     MOCK_IHV_ID (fun _ => EFI_SUCCESS) 0xa0a1a2a3 0xb0b1b2b3b4b5b6b7
     0xc0c1c2c3c4c5c6c7 (by decide) (by decide)⟩

/-- Claim C5: a supplied component id is passed to the service verbatim;
an absent component id resolves to the module's own identity GUID; and
absent library/partner ids appear in the encoded payload as the all-zero
sentinel GUID, never as an absent field. -/
theorem component_and_sentinel_defaults (moduleId X : Guid)
    (svc : RscService) (is_fatal : Bool) (class_id e1 e2 : Nat)
    (comp lib ihv : Option Guid) :
    (∃ inv, (log_telemetry_internal moduleId (LocateResult.found svc)
        is_fatal class_id e1 e2 (some X) lib ihv).invocation
        = some inv ∧ inv.caller_id = X) ∧
    (∃ inv, (log_telemetry_internal moduleId (LocateResult.found svc)
        is_fatal class_id e1 e2 none lib ihv).invocation
        = some inv ∧ inv.caller_id = moduleId) ∧
    (∃ inv, (log_telemetry_internal moduleId (LocateResult.found svc)
        is_fatal class_id e1 e2 comp none none).invocation
        = some inv ∧
       (inv.data.drop 20).take 16 = guidZERO.bytes ∧
       ((inv.data.drop 20).drop 16).take 16 = guidZERO.bytes) := by
  simp only [log_telemetry_internal_spine, report_found_spine]
  refine ⟨⟨_, rfl, rfl⟩, ⟨_, rfl, rfl⟩, ⟨_, rfl, ?_, ?_⟩⟩
  · rw [buildRecord_drop20]
    rfl
  · rw [buildRecord_drop20]
    rfl

/-- Claim C6: the severity resolves to exactly one of the two fixed bit
patterns, Fatal to EFI_ERROR_MAJOR | EFI_ERROR_CODE and Info to
EFI_ERROR_MINOR | EFI_ERROR_CODE, and that value is the type argument
of the service invocation. -/
theorem severity_wire_encoding (moduleId : Guid) (svc : RscService)
    (is_fatal : Bool) (class_id e1 e2 : Nat)
    (comp lib ihv : Option Guid) :
    MS_WHEA_ERROR_STATUS_TYPE_FATAL
      = Nat.lor EFI_ERROR_MAJOR EFI_ERROR_CODE ∧
    MS_WHEA_ERROR_STATUS_TYPE_INFO
      = Nat.lor EFI_ERROR_MINOR EFI_ERROR_CODE ∧
    ∃ inv, (log_telemetry_internal moduleId (LocateResult.found svc)
        is_fatal class_id e1 e2 comp lib ihv).invocation = some inv ∧
      inv.type = if is_fatal then MS_WHEA_ERROR_STATUS_TYPE_FATAL
        else MS_WHEA_ERROR_STATUS_TYPE_INFO := by
  simp only [log_telemetry_internal_spine, report_found_spine]
  exact ⟨rfl, rfl, _, rfl, rfl⟩

/-- Claim C7: when the reporting service cannot be resolved (the
directory reports absence, either as an empty result or as a NOT_FOUND
error), the call fails with NOT_FOUND, and the trace shows the lookup
happened before any encoding: no record buffer is built and no
invocation is made. -/
theorem report_notfound_no_buffer (moduleId : Guid)
    (locate : LocateResult) (st v inst : Nat) (cid : Option Guid)
    (dt : Guid) (data : List Nat)
    (h : locate = LocateResult.notFound ∨
         locate = LocateResult.err EFI_NOT_FOUND) :
    report_status_code moduleId locate st v inst cid dt data =
      { trace := [Event.lookup], serviceStatus := none,
        outcome := RsOutcome.err EFI_NOT_FOUND, invocation := none } := by
  rcases h with h | h <;> subst h <;> rfl

/-- Claim C7 witness: a concrete call with the service absent. -/
theorem report_notfound_no_buffer_witness :
    (LocateResult.notFound = LocateResult.notFound ∨
     LocateResult.notFound = LocateResult.err EFI_NOT_FOUND) ∧
    report_status_code guidZERO LocateResult.notFound
        MS_WHEA_ERROR_STATUS_TYPE_FATAL 1 0 none
        MS_WHEA_RSC_DATA_TYPE_GUID payload48 =
      { trace := [Event.lookup], serviceStatus := none,
        outcome := RsOutcome.err EFI_NOT_FOUND, invocation := none } :=
  ⟨Or.inl rfl,
   report_notfound_no_buffer guidZERO LocateResult.notFound
     MS_WHEA_ERROR_STATUS_TYPE_FATAL 1 0 none MS_WHEA_RSC_DATA_TYPE_GUID
     payload48 (Or.inl rfl)⟩
